import Mathlib

/-!
Verification development for the CRM mutation layer of this repository:
`crm/models.py` (data model) and `crm/schema.py` (validators and the
`CreateCustomer`, `BulkCreateCustomers`, `CreateProduct`, `CreateOrder`
mutations).  The Django record store is modelled as explicit state threaded
through each mutation; decimal prices are modelled in cents (`Int`, two
fractional digits of scale); regex character classes are modelled over ASCII.
-/

/-- Character class `[a-zA-Z0-9._%+-]` of the local part of the email regex
in `validate_email` (crm/schema.py line 52). -/
def isEmailLocalChar (c : Char) : Bool :=
  c.isAlpha || c.isDigit || c == '.' || c == '_' || c == '%' || c == '+' || c == '-'

/-- Character class `[a-zA-Z0-9.-]` of the domain part of the email regex. -/
def isEmailDomainChar (c : Char) : Bool :=
  c.isAlpha || c.isDigit || c == '.' || c == '-'

/-- Anchored match of the email regex `^[a-zA-Z0-9._%+-]+@[a-zA-Z0-9.-]+\.[a-zA-Z]{2,}$`
against a whole character list.  Since no character class contains `@`, any
successful match splits the string at its first `@`; after it, some `.` must
split a non-empty all-domain-class run from a final all-alphabetic run of
length at least two (backtracking over `.` positions is the `any` below). -/
def emailCoreMatch (cs : List Char) : Bool :=
  match cs.span (fun c => c != '@') with
  | (l, '@' :: rest) =>
      !l.isEmpty && l.all isEmailLocalChar &&
      (List.range rest.length).any (fun i =>
        rest[i]? == some '.' &&
        !(rest.take i).isEmpty && (rest.take i).all isEmailDomainChar &&
        (rest.drop (i + 1)).all Char.isAlpha && decide (2 ≤ (rest.drop (i + 1)).length))
  | _ => false

/-- Models `validate_email` (crm/schema.py lines 50-53), i.e. Python
`re.match` of the anchored email regex: the `$` anchor also matches just
before one trailing newline, hence the second disjunct. -/
def validate_email (email : String) : Bool :=
  emailCoreMatch email.data ||
  (match email.data.getLast? with
   | some c => c == '\n' && emailCoreMatch email.data.dropLast
   | none => false)

/-- Character class `[\d\-\s\(\)]` of the phone regex in `validate_phone`
(crm/schema.py line 60); `\d` and `\s` modelled over ASCII. -/
def isPhoneChar (c : Char) : Bool :=
  c.isDigit || c == '-' || c == ' ' || c == '\t' || c == '\n' || c == '\r' ||
  c == Char.ofNat 11 || c == Char.ofNat 12 || c == '(' || c == ')'

/-- Models `validate_phone` (crm/schema.py lines 56-61): a falsy (empty)
phone is accepted outright; otherwise the anchored regex `^\+?[\d\-\s\(\)]+$`
must match, i.e. an optional leading plus sign followed by a non-empty run of
digits, hyphens, whitespace and parentheses. -/
def validate_phone (phone : String) : Bool :=
  if phone.isEmpty then true
  else
    let body :=
      match phone.data with
      | '+' :: rest => rest
      | cs => cs
    !body.isEmpty && body.all isPhoneChar

/-- Customer row of `crm/models.py` (lines 6-10); `created_at` is a
store-assigned timestamp and is not modelled. -/
structure Customer where
  id : Nat
  name : String
  email : String
  phone : Option String
  deriving DecidableEq

/-- Product row of `crm/models.py` (lines 16-19); `price` is a two-place
decimal modelled in cents. -/
structure Product where
  id : Nat
  name : String
  price : Int
  stock : Nat
  deriving DecidableEq

/-- Order row of `crm/models.py` (lines 25-29); `order_date` is a timestamp
and is not modelled. -/
structure Order where
  id : Nat
  customer_id : Nat
  product_ids : List Nat
  total_amount : Int
  deriving DecidableEq

/-- The record store: the three Django tables as lists of rows. -/
structure Store where
  customers : List Customer
  products : List Product
  orders : List Order
  deriving DecidableEq

/-- The `CustomerInput` GraphQL input type (crm/schema.py lines 31-34);
`phone` is optional. -/
structure CustomerInput where
  name : String
  email : String
  phone : Option String
  deriving DecidableEq

/-- The `OrderInput` GraphQL input type (crm/schema.py lines 43-46);
`order_date` is a timestamp and is not modelled. -/
structure OrderInput where
  customer_id : Nat
  product_ids : List Nat
  deriving DecidableEq

/-- Python truthiness of an optional string field: `None` and the empty
string are falsy. -/
def optTruthy : Option String → Bool
  | none => false
  | some s => !s.isEmpty

/-- The condition under which the mutations report a phone-format error:
`input.phone and not validate_phone(input.phone)` (crm/schema.py lines 83
and 142). -/
def phoneInvalid (p : Option String) : Bool :=
  optTruthy p && !validate_phone (p.getD "")

/-- Models the `phone or None` expression used at persistence time
(crm/schema.py lines 102 and 160): a falsy phone is stored as null. -/
def phoneOrNone (p : Option String) : Option String :=
  match p with
  | some s => if s.isEmpty then none else some s
  | none => none

/-- Models `Customer.objects.filter(email=e).exists()` (crm/schema.py lines
87 and 147): an exact-match query over the rows visible to the current
transaction. -/
def emailExists (s : Store) (e : String) : Bool :=
  s.customers.any (fun c => c.email == e)

/-- The row built by `Customer.objects.create` (crm/schema.py lines 99-103
and 157-161): name and email stored verbatim, phone via `phone or None`. -/
def newCustomer (s : Store) (inp : CustomerInput) : Customer :=
  { id := s.customers.length + 1, name := inp.name, email := inp.email,
    phone := phoneOrNone inp.phone }

/-- Appends a freshly created customer row to the store. -/
def storeAddCustomer (s : Store) (c : Customer) : Store :=
  { s with customers := s.customers ++ [c] }

/-- Models `Customer.objects.get(id=i)`, returning none on `DoesNotExist`. -/
def findCustomer (s : Store) (i : Nat) : Option Customer :=
  s.customers.find? (fun c => c.id == i)

/-- Models `Product.objects.get(id=i)`, returning none on `DoesNotExist`. -/
def findProduct (s : Store) (i : Nat) : Option Product :=
  s.products.find? (fun p => p.id == i)

/-- Result type of the `CreateCustomer` mutation (crm/schema.py lines
69-72). -/
structure CreateCustomerResult where
  customer : Option Customer
  message : String
  success : Bool
  errors : List String
  deriving DecidableEq

/-- Models `CreateCustomer.mutate` (crm/schema.py lines 74-116): collect the
email-format, phone-format and existing-email errors in declaration order;
on any error return the failure response and write nothing, otherwise create
the row.  The modelled `create` always succeeds, so the `except` branch of
the source is unreachable in the model. -/
def createCustomer (s : Store) (input : CustomerInput) :
    CreateCustomerResult × Store :=
  let errors :=
    (if !validate_email input.email then ["Invalid email format"] else []) ++
    (if phoneInvalid input.phone then
       ["Invalid phone format. Use formats like +1234567890 or 123-456-7890"]
     else []) ++
    (if emailExists s input.email then ["Email already exists"] else [])
  if !errors.isEmpty then
    ({ customer := none, message := "Validation failed", success := false,
       errors := errors }, s)
  else
    ({ customer := some (newCustomer s input),
       message := "Customer created successfully", success := true,
       errors := [] }, storeAddCustomer s (newCustomer s input))

/-- Result type of the `BulkCreateCustomers` mutation (crm/schema.py lines
123-126). -/
structure BulkCreateCustomersResult where
  customers : List Customer
  errors : List String
  success_count : Nat
  total_count : Nat
  deriving DecidableEq

/-- The error tag used by `BulkCreateCustomers.mutate`: the f-string prefix
`"Row {i+1}: "` for the zero-based loop index `i`. -/
def rowTag (i : Nat) : String :=
  "Row " ++ toString (i + 1) ++ ": "

/-- The loop of `BulkCreateCustomers.mutate` (crm/schema.py lines 133-165).
`orig` is the whole input list (the in-batch duplicate check reads
`input[:i]`), the final argument the elements not yet processed, `i` the
current zero-based index; `created` and `errors` accumulate.  The store `s`
threads through because the element queries run inside the one enclosing
transaction and see rows created by earlier elements of the same batch.
Each failing check appends one tagged error and skips the element via
`continue`; the modelled `create` always succeeds, so the per-element
`except` branch of the source is unreachable in the model. -/
def bulkGo (orig : List CustomerInput) (s : Store) (i : Nat)
    (created : List Customer) (errors : List String) :
    List CustomerInput → List Customer × List String × Store
  | [] => (created, errors, s)
  | cd :: rest =>
      if !validate_email cd.email then
        bulkGo orig s (i + 1) created
          (errors ++ [rowTag i ++ "Invalid email format"]) rest
      else if phoneInvalid cd.phone then
        bulkGo orig s (i + 1) created
          (errors ++ [rowTag i ++ "Invalid phone format"]) rest
      else if emailExists s cd.email then
        bulkGo orig s (i + 1) created
          (errors ++ [rowTag i ++ "Email " ++ cd.email ++ " already exists"]) rest
      else if ((orig.take i).map CustomerInput.email).contains cd.email then
        bulkGo orig s (i + 1) created
          (errors ++ [rowTag i ++ "Duplicate email " ++ cd.email ++ " in batch"]) rest
      else
        bulkGo orig (storeAddCustomer s (newCustomer s cd)) (i + 1)
          (created ++ [newCustomer s cd]) errors rest

/-- Models `BulkCreateCustomers.mutate` (crm/schema.py lines 128-172).  The
enclosing `transaction.atomic()` always commits: element failures are skipped
with `continue`, never raised, so every row created along the way persists. -/
def bulkCreateCustomers (s : Store) (input : List CustomerInput) :
    BulkCreateCustomersResult × Store :=
  let r := bulkGo input s 0 [] [] input
  ({ customers := r.1, errors := r.2.1, success_count := r.1.length,
     total_count := input.length }, r.2.2)

/-- Result type of the `CreateOrder` mutation (crm/schema.py lines
230-233). -/
structure CreateOrderResult where
  order : Option Order
  message : String
  success : Bool
  errors : List String
  deriving DecidableEq

/-- The product-resolution loop of `CreateOrder.mutate` (crm/schema.py lines
247-254): resolved products and per-id not-found errors, each list in input
order. -/
def resolveProducts (s : Store) : List Nat → List Product × List String
  | [] => ([], [])
  | pid :: rest =>
      let r := resolveProducts s rest
      match findProduct s pid with
      | some p => (p :: r.1, r.2)
      | none =>
          (r.1, ("Product with ID " ++ toString pid ++ " does not exist") :: r.2)

/-- A single-quote character, built by code point. -/
def squo : String := String.singleton (Char.ofNat 39)

/-- The `str(e)` of the `AttributeError` raised by `order.calculate_total()`:
the `Order` model in crm/models.py defines no `calculate_total` method. -/
def calculateTotalAttrError : String :=
  squo ++ "Order" ++ squo ++ " object has no attribute " ++ squo ++
    "calculate_total" ++ squo

/-- Sum of the prices (in cents) of the products that resolve: the total the
spec says a successfully created order must carry. -/
def resolvedPriceSum (s : Store) (pids : List Nat) : Int :=
  ((resolveProducts s pids).1.map Product.price).sum

/-- The error list accumulated by the resolution phase of
`CreateOrder.mutate` (crm/schema.py lines 237-256): a missing customer
appends its error first, then either the empty-product-list error or one
error per missing product id, in input order. -/
def orderResolutionErrors (s : Store) (input : OrderInput) : List String :=
  (match findCustomer s input.customer_id with
   | some _ => []
   | none =>
       ["Customer with ID " ++ toString input.customer_id ++ " does not exist"]) ++
  (if input.product_ids.isEmpty then ["At least one product must be selected"]
   else (resolveProducts s input.product_ids).2)

/-- Models `CreateOrder.mutate` (crm/schema.py lines 235-293).  On any
resolution error the failure response carrying the accumulated list is
returned and nothing is written.  On the all-clear path the source creates
the order, sets its resolved products, and then calls
`order.calculate_total()`; `Order` in crm/models.py defines no such method,
so the call raises `AttributeError`, `transaction.atomic` rolls the writes
back, and the `except` branch returns the generic failure response carrying
`str(e)` — the model returns exactly that response with the store unchanged
(the resolved product list is consumed only by that doomed path). -/
def createOrder (s : Store) (input : OrderInput) : CreateOrderResult × Store :=
  let errors := orderResolutionErrors s input
  if !errors.isEmpty then
    ({ order := none, message := "Validation failed", success := false,
       errors := errors }, s)
  else
    ({ order := none, message := "Failed to create order", success := false,
       errors := [calculateTotalAttrError] }, s)

/-- The two accepted phone shapes named by the spec (section 4.1): an
international form (a plus sign followed by 7 to 15 digits) or a grouped
form DDD-DDD-DDDD.  Stated from the spec text, for comparison with the
source's `validate_phone`. -/
def specTwoShapePhone (p : String) : Bool :=
  (match p.data with
   | '+' :: ds =>
       ds.all Char.isDigit && decide (7 ≤ ds.length) && decide (ds.length ≤ 15)
   | _ => false) ||
  (match p.data with
   | [a, b, c, '-', d, e, f, '-', g, h, i, j] =>
       [a, b, c, d, e, f, g, h, i, j].all Char.isDigit
   | _ => false)

/-- The store with no rows at all. -/
def emptyStore : Store := { customers := [], products := [], orders := [] }

/-- Store for the order-total scenario of the spec: one customer and the two
seed products priced 999.99 and 25.50 (in cents). -/
def c1Store : Store :=
  { customers := [{ id := 1, name := "Alice", email := "alice@example.com",
                    phone := none }],
    products := [{ id := 1, name := "Laptop", price := 99999, stock := 10 },
                 { id := 2, name := "Mouse", price := 2550, stock := 100 }],
    orders := [] }

/-- The three-element batch of the spec's batch scenario. -/
def batchC2 : List CustomerInput :=
  [{ name := "A", email := "a@x.com", phone := none },
   { name := "", email := "b@x.com", phone := none },
   { name := "C", email := "a@x.com", phone := none }]

/-- A falsy phone input is normalized to null before storage. -/
theorem phoneOrNone_of_falsy (p : Option String) (h : optTruthy p = false) :
    phoneOrNone p = none := by
  cases p with
  | none => rfl
  | some s =>
      simp [optTruthy] at h
      simp [phoneOrNone, h]

/-- A truthy phone input is stored verbatim. -/
theorem phoneOrNone_of_truthy (p : Option String) (v : String) (hp : p = some v)
    (hv : v ≠ "") : phoneOrNone p = some v := by
  subst hp
  have : v.isEmpty = false := by
    cases hvi : v.isEmpty
    · rfl
    · exact absurd ((String.isEmpty_iff v).mp hvi) hv
  simp [phoneOrNone, this]

/-- The stored phone is either null or the verbatim truthy input value. -/
theorem phoneOrNone_cases (p : Option String) :
    phoneOrNone p = none ∨ (phoneOrNone p = p ∧ optTruthy p = true) := by
  cases p with
  | none => exact Or.inl rfl
  | some s =>
      cases hs : s.isEmpty
      · exact Or.inr ⟨by simp [phoneOrNone, hs], by simp [optTruthy, hs]⟩
      · exact Or.inl (by simp [phoneOrNone, hs])

/-- The stored phone is never the empty string. -/
theorem phoneOrNone_ne_some_empty (p : Option String) : phoneOrNone p ≠ some "" := by
  cases p with
  | none => simp [phoneOrNone]
  | some s =>
      cases hs : s.isEmpty
      · simp only [phoneOrNone, hs, Bool.false_eq_true, if_false, ne_eq,
          Option.some.injEq]
        intro h
        rw [h] at hs
        exact absurd hs (by simp [String.isEmpty_iff])
      · simp [phoneOrNone, hs]

/-- Each loop step of `BulkCreateCustomers.mutate` appends exactly one
outcome: one created row or one tagged error. -/
theorem bulkGo_length (orig : List CustomerInput) (rest : List CustomerInput) :
    ∀ (s : Store) (i : Nat) (created : List Customer) (errors : List String),
      (bulkGo orig s i created errors rest).1.length +
        (bulkGo orig s i created errors rest).2.1.length =
      created.length + errors.length + rest.length := by
  induction rest with
  | nil => intro s i created errors; simp [bulkGo]
  | cons cd rest ih =>
      intro s i created errors
      rw [bulkGo]
      split
      · rw [ih]; simp; omega
      split
      · rw [ih]; simp; omega
      split
      · rw [ih]; simp; omega
      split
      · rw [ih]; simp; omega
      · rw [ih]; simp; omega

/-- The rows the loop creates are exactly the rows it appends to the store:
the accumulated created list and the store's customer table grow by the same
suffix. -/
theorem bulkGo_store_append (orig : List CustomerInput) (rest : List CustomerInput) :
    ∀ (s : Store) (i : Nat) (created : List Customer) (errors : List String),
      ∃ Δ : List Customer,
        (bulkGo orig s i created errors rest).1 = created ++ Δ ∧
        (bulkGo orig s i created errors rest).2.2.customers = s.customers ++ Δ := by
  induction rest with
  | nil => intro s i created errors; exact ⟨[], by simp [bulkGo]⟩
  | cons cd rest ih =>
      intro s i created errors
      rw [bulkGo]
      split
      · exact ih _ _ _ _
      split
      · exact ih _ _ _ _
      split
      · exact ih _ _ _ _
      split
      · exact ih _ _ _ _
      · obtain ⟨Δ, h1, h2⟩ :=
          ih (storeAddCustomer s (newCustomer s cd)) (i + 1)
            (created ++ [newCustomer s cd]) errors
        refine ⟨newCustomer s cd :: Δ, ?_, ?_⟩
        · rw [h1]; simp
        · rw [h2]; simp [storeAddCustomer]

/-- String concatenation is associative. -/
theorem strAppend_assoc (a b c : String) : (a ++ b) ++ c = a ++ (b ++ c) := by
  apply String.ext
  simp

/-- Every error string the loop appends is tagged with the one-based row
number of an index of the original input. -/
theorem bulkGo_errors_tagged (orig : List CustomerInput) (rest : List CustomerInput) :
    ∀ (s : Store) (i : Nat) (created : List Customer) (errors : List String),
      i + rest.length ≤ orig.length →
      (∀ e ∈ errors, ∃ j reason, j < orig.length ∧ e = rowTag j ++ reason) →
      ∀ e ∈ (bulkGo orig s i created errors rest).2.1,
        ∃ j reason, j < orig.length ∧ e = rowTag j ++ reason := by
  induction rest with
  | nil =>
      intro s i created errors hle hacc e he
      simp only [bulkGo] at he
      exact hacc e he
  | cons cd rest ih =>
      intro s i created errors hle hacc e he
      have hlt : i < orig.length := by simp at hle; omega
      have hle' : (i + 1) + rest.length ≤ orig.length := by simp at hle; omega
      have hstep : ∀ msg : String,
          (∃ reason, msg = rowTag i ++ reason) →
          ∀ e' ∈ errors ++ [msg],
            ∃ j reason, j < orig.length ∧ e' = rowTag j ++ reason := by
        intro msg hmsg e' he'
        rcases List.mem_append.mp he' with h | h
        · exact hacc e' h
        · simp at h
          obtain ⟨reason, hr⟩ := hmsg
          exact ⟨i, reason, hlt, h ▸ hr⟩
      rw [bulkGo] at he
      split at he
      · exact ih _ _ _ _ hle' (hstep _ ⟨"Invalid email format", rfl⟩) e he
      split at he
      · exact ih _ _ _ _ hle' (hstep _ ⟨"Invalid phone format", rfl⟩) e he
      split at he
      · exact ih _ _ _ _ hle'
          (hstep _ ⟨"Email " ++ cd.email ++ " already exists",
            by simp [strAppend_assoc]⟩) e he
      split at he
      · exact ih _ _ _ _ hle'
          (hstep _ ⟨"Duplicate email " ++ cd.email ++ " in batch",
            by simp [strAppend_assoc]⟩) e he
      · exact ih _ _ _ _ hle' hacc e he

/-- Every row the loop creates carries the phone of some input element of
the remaining batch, normalized through `phone or None`. -/
theorem bulkGo_created_phone (orig : List CustomerInput) (rest : List CustomerInput) :
    ∀ (s : Store) (i : Nat) (created : List Customer) (errors : List String)
      (c : Customer),
      c ∈ (bulkGo orig s i created errors rest).1 →
      c ∈ created ∨ ∃ cd ∈ rest, c.phone = phoneOrNone cd.phone := by
  induction rest with
  | nil =>
      intro s i created errors c hc
      simp only [bulkGo] at hc
      exact Or.inl hc
  | cons cd rest ih =>
      intro s i created errors c hc
      rw [bulkGo] at hc
      have push : c ∈ created ∨ (∃ cd' ∈ rest, c.phone = phoneOrNone cd'.phone) →
          c ∈ created ∨ ∃ cd' ∈ cd :: rest, c.phone = phoneOrNone cd'.phone := by
        rintro (h | ⟨cd', hmem, hph⟩)
        · exact Or.inl h
        · exact Or.inr ⟨cd', List.mem_cons_of_mem _ hmem, hph⟩
      split at hc
      · rcases ih _ _ _ _ _ hc with h | ⟨cd', hmem, hph⟩
        · exact Or.inl h
        · exact Or.inr ⟨cd', List.mem_cons_of_mem _ hmem, hph⟩
      split at hc
      · rcases ih _ _ _ _ _ hc with h | ⟨cd', hmem, hph⟩
        · exact Or.inl h
        · exact Or.inr ⟨cd', List.mem_cons_of_mem _ hmem, hph⟩
      split at hc
      · rcases ih _ _ _ _ _ hc with h | ⟨cd', hmem, hph⟩
        · exact Or.inl h
        · exact Or.inr ⟨cd', List.mem_cons_of_mem _ hmem, hph⟩
      split at hc
      · rcases ih _ _ _ _ _ hc with h | ⟨cd', hmem, hph⟩
        · exact Or.inl h
        · exact Or.inr ⟨cd', List.mem_cons_of_mem _ hmem, hph⟩
      · rcases ih _ _ _ _ _ hc with h | ⟨cd', hmem, hph⟩
        · rcases List.mem_append.mp h with h' | h'
          · exact Or.inl h'
          · simp at h'
            exact Or.inr ⟨cd, List.mem_cons_self _ _, by rw [h']; rfl⟩
        · exact Or.inr ⟨cd', List.mem_cons_of_mem _ hmem, hph⟩

/-- A product id that does not resolve contributes its own not-found error
to the resolution loop's error list. -/
theorem resolveProducts_missing_mem (s : Store) (pid : Nat) (pids : List Nat) :
    pid ∈ pids → findProduct s pid = none →
    ("Product with ID " ++ toString pid ++ " does not exist") ∈
      (resolveProducts s pids).2 := by
  induction pids with
  | nil => intro h; simp at h
  | cons q rest ih =>
      intro hmem hnone
      rcases List.mem_cons.mp hmem with rfl | h
      · simp [resolveProducts, hnone]
      · cases hq : findProduct s q
        · simp only [resolveProducts, hq]
          exact List.mem_cons_of_mem _ (ih h hnone)
        · simp only [resolveProducts, hq]
          exact ih h hnone

/-- Any resolution failure makes the accumulated error list non-empty. -/
theorem orderResolutionErrors_ne_nil (s : Store) (input : OrderInput)
    (h : findCustomer s input.customer_id = none ∨ input.product_ids = [] ∨
         ∃ pid ∈ input.product_ids, findProduct s pid = none) :
    orderResolutionErrors s input ≠ [] := by
  rcases h with h | h | ⟨pid, hpid, hnone⟩
  · simp [orderResolutionErrors, h]
  · simp [orderResolutionErrors, h]
  · have hmem := resolveProducts_missing_mem s pid input.product_ids hpid hnone
    have hpe : input.product_ids.isEmpty = false := by
      cases hp : input.product_ids with
      | nil => rw [hp] at hpid; simp at hpid
      | cons a l => rfl
    intro hnil
    simp only [orderResolutionErrors, hpe, Bool.false_eq_true, if_false,
      List.append_eq_nil] at hnil
    exact absurd (hnil.2 ▸ hmem) (List.not_mem_nil _)

/-- C1: the claim says a createOrder call whose customer resolves and whose
product list is non-empty and fully resolvable returns success=true and
persists an order whose total_amount is the exact decimal sum of the
resolved prices (999.99 and 25.50 giving 1025.49).  The source instead calls
`order.calculate_total()`, a method the `Order` model does not define, so on
exactly this input the mutation returns success=false with the
AttributeError text, persists nothing, and the intended total 1025.49
(102549 cents, the sum of the resolved prices) is never stored. -/
theorem C1_createOrder_total_bug :
    (createOrder c1Store { customer_id := 1, product_ids := [1, 2] }).1.success
      = false ∧
    (createOrder c1Store { customer_id := 1, product_ids := [1, 2] }).1.order
      = none ∧
    (createOrder c1Store { customer_id := 1, product_ids := [1, 2] }).1.message
      = "Failed to create order" ∧
    (createOrder c1Store { customer_id := 1, product_ids := [1, 2] }).1.errors
      = [calculateTotalAttrError] ∧
    (createOrder c1Store { customer_id := 1, product_ids := [1, 2] }).2
      = c1Store ∧
    resolvedPriceSum c1Store [1, 2] = 102549 := by
  decide

/-- C2 counterexample: on the batch of the claim, run against an empty
store, `bulkCreateCustomers` creates two customers, not exactly one — the
blank-name element at index 1 is persisted because the source never
validates names. -/
theorem C2_counterexample :
    (bulkCreateCustomers emptyStore batchC2).1.customers.length = 2 := by
  decide

/-- C2 amended: on the batch `[(A, a@x.com), (blank name, b@x.com),
(C, a@x.com)]` against an empty store, indices 0 and 1 both succeed (no
name-required check exists), index 2 fails with a duplicate-email error
tagged with the one-based row number 3, and exactly two customers are
created and persisted. -/
theorem C2_batch_scenario :
    (bulkCreateCustomers emptyStore batchC2).1.customers.map Customer.name
      = ["A", ""] ∧
    (bulkCreateCustomers emptyStore batchC2).1.errors
      = ["Row 3: Email a@x.com already exists"] ∧
    (bulkCreateCustomers emptyStore batchC2).1.success_count = 2 ∧
    (bulkCreateCustomers emptyStore batchC2).1.total_count = 3 ∧
    (bulkCreateCustomers emptyStore batchC2).2.customers.length = 2 := by
  decide

/-- C3 counterexample: with the validly-formatted mixed-case email A@X.com
and an empty store, createCustomer succeeds but stores the email verbatim,
not lower-cased; and against a store already holding a@x.com, the same input
succeeds with no duplicate error, so the uniqueness comparison is not
case-normalized either. -/
theorem C3_counterexample :
    (createCustomer emptyStore
      { name := "N", email := "A@X.com", phone := none }).1.success = true ∧
    ((createCustomer emptyStore
      { name := "N", email := "A@X.com", phone := none }).1.customer.map
        Customer.email) = some "A@X.com" ∧
    "A@X.com" ≠ "a@x.com" ∧
    (createCustomer
      { customers := [{ id := 1, name := "E", email := "a@x.com", phone := none }],
        products := [], orders := [] }
      { name := "N", email := "A@X.com", phone := none }).1.success = true ∧
    (createCustomer
      { customers := [{ id := 1, name := "E", email := "a@x.com", phone := none }],
        products := [], orders := [] }
      { name := "N", email := "A@X.com", phone := none }).1.errors = [] := by
  decide

/-- C3 amended: for every createCustomer call with a validly-formatted email
that is not already present in the store under exact (case-sensitive)
comparison and a phone that raises no format error, the call returns
success=true and the created and persisted record's email equals the input
email verbatim; the uniqueness comparison against existing records is the
exact-match store query `emailExists`. -/
theorem C3_createCustomer_verbatim_email (s : Store) (input : CustomerInput)
    (hemail : validate_email input.email = true)
    (hphone : phoneInvalid input.phone = false)
    (hnew : emailExists s input.email = false) :
    (createCustomer s input).1.success = true ∧
    (createCustomer s input).1.customer = some (newCustomer s input) ∧
    (newCustomer s input).email = input.email ∧
    (createCustomer s input).2.customers = s.customers ++ [newCustomer s input] := by
  simp [createCustomer, hemail, hphone, hnew, storeAddCustomer, newCustomer]

/-- C3 witness: the amended theorem applied to the email A@X.com on the
empty store stores A@X.com verbatim. -/
theorem C3_witness :
    (createCustomer emptyStore
      { name := "N", email := "A@X.com", phone := none }).1.success = true ∧
    (newCustomer emptyStore
      { name := "N", email := "A@X.com", phone := none }).email = "A@X.com" :=
  have h := C3_createCustomer_verbatim_email emptyStore
    { name := "N", email := "A@X.com", phone := none }
    (by decide) (by decide) (by decide)
  ⟨h.1, h.2.2.1⟩

/-- C4: for any store and any batch of N customer inputs,
bulkCreateCustomers produces exactly one outcome per index — the length of
the created list plus the number of tagged errors equals N — and every
record created along the way is still present in the final store, appended
after the pre-existing rows, despite failures at later indices. -/
theorem C4_bulk_one_outcome_per_index (s : Store) (input : List CustomerInput) :
    (bulkCreateCustomers s input).1.customers.length +
      (bulkCreateCustomers s input).1.errors.length = input.length ∧
    (bulkCreateCustomers s input).1.total_count = input.length ∧
    (bulkCreateCustomers s input).2.customers =
      s.customers ++ (bulkCreateCustomers s input).1.customers := by
  refine ⟨?_, rfl, ?_⟩
  · have h := bulkGo_length input input s 0 [] []
    simpa [bulkCreateCustomers] using h
  · obtain ⟨Δ, h1, h2⟩ := bulkGo_store_append input input s 0 [] []
    simp only [bulkCreateCustomers]
    rw [h1, h2]
    simp

/-- C5 counterexample: against an empty store — which contains no durably
committed record at all — the two-element batch with equal emails still
fails its second element with the store-query error "already exists": the
uniqueness check consulted the record created for index 0 inside the same
still-uncommitted batch transaction, which the claim says cannot happen. -/
theorem C5_counterexample :
    (bulkCreateCustomers emptyStore
      [{ name := "A", email := "a@x.com", phone := none },
       { name := "B", email := "a@x.com", phone := none }]).1.errors =
      ["Row 2: Email a@x.com already exists"] ∧
    (bulkCreateCustomers emptyStore
      [{ name := "A", email := "a@x.com", phone := none },
       { name := "B", email := "a@x.com", phone := none }]).1.customers.length
      = 1 := by
  decide

/-- C5 amended: the store-query uniqueness check for the element at index i
runs inside the same enclosing transaction and therefore sees records
created by earlier elements of the same batch: for any store with no record
of the (valid) email e, a batch of two elements with email e creates the
first and rejects the second with the store-check error tagged row 2. -/
theorem C5_uniqueness_sees_uncommitted_batch (s : Store) (n1 n2 e : String)
    (he : validate_email e = true) (hs : emailExists s e = false) :
    (bulkCreateCustomers s
      [{ name := n1, email := e, phone := none },
       { name := n2, email := e, phone := none }]).1.errors =
      [rowTag 1 ++ "Email " ++ e ++ " already exists"] ∧
    (bulkCreateCustomers s
      [{ name := n1, email := e, phone := none },
       { name := n2, email := e, phone := none }]).1.customers =
      [newCustomer s { name := n1, email := e, phone := none }] := by
  have h2 : emailExists
      (storeAddCustomer s (newCustomer s { name := n1, email := e, phone := none }))
      e = true := by
    simp [emailExists, storeAddCustomer, newCustomer]
  constructor <;>
    simp [bulkCreateCustomers, bulkGo, he, hs, h2, phoneInvalid, optTruthy]

/-- C5 witness: the amended theorem applied to the email a@x.com and the
empty store. -/
theorem C5_witness :
    (bulkCreateCustomers emptyStore
      [{ name := "A", email := "a@x.com", phone := none },
       { name := "B", email := "a@x.com", phone := none }]).1.errors =
      [rowTag 1 ++ "Email " ++ "a@x.com" ++ " already exists"] :=
  (C5_uniqueness_sees_uncommitted_batch emptyStore "A" "B" "a@x.com"
    (by decide) (by decide)).1

/-- C6: whenever createOrder encounters any resolution error — an empty
product-reference list, a customer id that does not resolve, or one or more
product ids that do not resolve — it returns success=false carrying the full
accumulated error list (every applicable error is present together, not just
the first encountered) and writes nothing to the store. -/
theorem C6_createOrder_error_accumulation (s : Store) (input : OrderInput)
    (h : findCustomer s input.customer_id = none ∨ input.product_ids = [] ∨
         ∃ pid ∈ input.product_ids, findProduct s pid = none) :
    (createOrder s input).1.success = false ∧
    (createOrder s input).1.order = none ∧
    (createOrder s input).2 = s ∧
    (createOrder s input).1.errors = orderResolutionErrors s input ∧
    (findCustomer s input.customer_id = none →
      ("Customer with ID " ++ toString input.customer_id ++ " does not exist")
        ∈ orderResolutionErrors s input) ∧
    (input.product_ids = [] →
      "At least one product must be selected" ∈ orderResolutionErrors s input) ∧
    (∀ pid ∈ input.product_ids, findProduct s pid = none →
      ("Product with ID " ++ toString pid ++ " does not exist")
        ∈ orderResolutionErrors s input) := by
  have hne := orderResolutionErrors_ne_nil s input h
  have hie : (orderResolutionErrors s input).isEmpty = false := by
    cases hoe : orderResolutionErrors s input with
    | nil => exact absurd hoe hne
    | cons a l => rfl
  refine ⟨?_, ?_, ?_, ?_, ?_, ?_, ?_⟩
  · simp [createOrder, hie]
  · simp [createOrder, hie]
  · simp [createOrder, hie]
  · simp [createOrder, hie]
  · intro hc
    simp [orderResolutionErrors, hc]
  · intro hp
    simp [orderResolutionErrors, hp]
  · intro pid hpid hnone
    have hpe : input.product_ids.isEmpty = false := by
      cases hp : input.product_ids with
      | nil => rw [hp] at hpid; simp at hpid
      | cons a l => rfl
    have hmem := resolveProducts_missing_mem s pid input.product_ids hpid hnone
    simp only [orderResolutionErrors, hpe, Bool.false_eq_true, if_false]
    exact List.mem_append_right _ hmem

/-- C6 witness: a missing customer id and a missing product id are reported
together in one failing call that writes nothing. -/
theorem C6_witness :
    (createOrder emptyStore { customer_id := 1, product_ids := [2] }).1.success
      = false ∧
    (createOrder emptyStore { customer_id := 1, product_ids := [2] }).2
      = emptyStore ∧
    ("Customer with ID " ++ toString (1 : Nat) ++ " does not exist")
      ∈ (createOrder emptyStore { customer_id := 1, product_ids := [2] }).1.errors ∧
    ("Product with ID " ++ toString (2 : Nat) ++ " does not exist")
      ∈ (createOrder emptyStore { customer_id := 1, product_ids := [2] }).1.errors := by
  have h := C6_createOrder_error_accumulation emptyStore
    { customer_id := 1, product_ids := [2] } (Or.inl (by decide))
  refine ⟨h.1, h.2.2.1, ?_, ?_⟩
  · rw [h.2.2.2.1]
    exact h.2.2.2.2.1 (by decide)
  · rw [h.2.2.2.1]
    exact h.2.2.2.2.2.2 2 (by decide) (by decide)

/-- C7 counterexample: the string 123 is accepted by the source's
`validate_phone` although it matches neither of the two shapes the claim
names (plus-then-7-to-15-digits or DDD-DDD-DDDD), and createCustomer
succeeds with it instead of reporting a phone-format error. -/
theorem C7_counterexample :
    validate_phone "123" = true ∧
    specTwoShapePhone "123" = false ∧
    (createCustomer emptyStore
      { name := "N", email := "n@x.com", phone := some "123" }).1.success
      = true ∧
    (createCustomer emptyStore
      { name := "N", email := "n@x.com", phone := some "123" }).1.errors
      = [] := by
  decide

/-- C7 amended: `validate_phone` accepts a phone string iff it is empty or
consists of an optional leading plus sign followed by a non-empty run of
digits, hyphens, whitespace and parentheses; and whenever a truthy phone
input fails this validation, createCustomer returns success=false with the
phone-format error in its error list and no record created or stored. -/
theorem C7_phone_validation :
    (∀ p : String, validate_phone p = true ↔
      (p = "" ∨ ∃ body : List Char, (p.data = body ∨ p.data = '+' :: body) ∧
        body ≠ [] ∧ body.all isPhoneChar = true)) ∧
    (∀ (s : Store) (input : CustomerInput),
      optTruthy input.phone = true →
      validate_phone (input.phone.getD "") = false →
      (createCustomer s input).1.success = false ∧
      (createCustomer s input).1.customer = none ∧
      "Invalid phone format. Use formats like +1234567890 or 123-456-7890"
        ∈ (createCustomer s input).1.errors ∧
      (createCustomer s input).2 = s) := by
  constructor
  · intro p
    unfold validate_phone
    split
    · rename_i h
      exact iff_of_true rfl (Or.inl ((String.isEmpty_iff p).mp h))
    · rename_i h
      have hpne : p ≠ "" := fun he => h (by rw [he]; rfl)
      split
      · rename_i rest heq
        constructor
        · intro hv
          simp only [Bool.and_eq_true, Bool.not_eq_true', List.isEmpty_eq_false] at hv
          exact Or.inr ⟨rest, Or.inr heq, hv.1, hv.2⟩
        · rintro (hcase | ⟨body, hb | hb, hbne, hball⟩)
          · exact absurd hcase hpne
          · rw [heq] at hb
            subst hb
            have : isPhoneChar '+' = true := by
              rw [List.all_eq_true] at hball
              exact hball '+' (List.mem_cons_self _ _)
            exact absurd this (by decide)
          · rw [heq] at hb
            injection hb with h1 h2
            subst h2
            simp only [Bool.and_eq_true, Bool.not_eq_true', List.isEmpty_eq_false]
            exact ⟨hbne, hball⟩
      · rename_i hno
        constructor
        · intro hv
          simp only [Bool.and_eq_true, Bool.not_eq_true', List.isEmpty_eq_false] at hv
          exact Or.inr ⟨p.data, Or.inl rfl, hv.1, hv.2⟩
        · rintro (hcase | ⟨body, hb | hb, hbne, hball⟩)
          · exact absurd hcase hpne
          · subst hb
            simp only [Bool.and_eq_true, Bool.not_eq_true', List.isEmpty_eq_false]
            exact ⟨hbne, hball⟩
          · exact absurd hb (hno _)
  · intro s input htr hbad
    have hpi : phoneInvalid input.phone = true := by
      simp [phoneInvalid, htr, hbad]
    cases h1 : validate_email input.email <;>
      cases h3 : emailExists s input.email <;>
        simp [createCustomer, h1, h3, hpi]

/-- C7 witness: the amended theorem applied to the non-empty letters-only
phone abc, which the permissive regex also rejects. -/
theorem C7_witness :
    (createCustomer emptyStore
      { name := "N", email := "n@x.com", phone := some "abc" }).1.success
      = false ∧
    "Invalid phone format. Use formats like +1234567890 or 123-456-7890"
      ∈ (createCustomer emptyStore
          { name := "N", email := "n@x.com", phone := some "abc" }).1.errors :=
  have h := C7_phone_validation.2 emptyStore
    { name := "N", email := "n@x.com", phone := some "abc" }
    (by decide) (by decide)
  ⟨h.1, h.2.2.1⟩

/-- C8 counterexample: a failing batch element yields the error string
"Row 1: Invalid email format", which is tagged with the one-based row
number, not with the zero-based form "Index 0: ..." the claim states. -/
theorem C8_counterexample :
    (bulkCreateCustomers emptyStore
      [{ name := "A", email := "bad", phone := none }]).1.errors =
      ["Row 1: Invalid email format"] ∧
    "Index 0: ".data.isPrefixOf "Row 1: Invalid email format".data = false := by
  decide

/-- C8 amended: every error string reported by bulkCreateCustomers is tagged
with the one-based row number of some index i of the batch, in the form
"Row i+1: " followed by a single reason. -/
theorem C8_errors_row_tagged (s : Store) (input : List CustomerInput)
    (e : String) (he : e ∈ (bulkCreateCustomers s input).1.errors) :
    ∃ i reason, i < input.length ∧ e = rowTag i ++ reason := by
  refine bulkGo_errors_tagged input input s 0 [] [] (by simp) ?_ e ?_
  · intro e' he'
    simp at he'
  · simpa [bulkCreateCustomers] using he

/-- C8 witness: the amended theorem applied to a one-element batch whose
element fails email validation. -/
theorem C8_witness :
    ∃ i reason,
      i < [({ name := "A", email := "bad", phone := none } : CustomerInput)].length ∧
      "Row 1: Invalid email format" = rowTag i ++ reason :=
  C8_errors_row_tagged emptyStore
    [{ name := "A", email := "bad", phone := none }]
    "Row 1: Invalid email format" (by decide)

/-- C9 counterexample: when the earlier element with the same email was
itself persisted, the duplicate at index 1 is rejected by the store-query
check with the "already exists" error, not by the in-batch duplicate-email
error the claim says is always used. -/
theorem C9_counterexample :
    (bulkCreateCustomers emptyStore
      [{ name := "A", email := "a@x.com", phone := none },
       { name := "C", email := "a@x.com", phone := none }]).1.errors =
      ["Row 2: Email a@x.com already exists"] ∧
    "Row 2: Duplicate email a@x.com in batch" ∉
      (bulkCreateCustomers emptyStore
        [{ name := "A", email := "a@x.com", phone := none },
         { name := "C", email := "a@x.com", phone := none }]).1.errors := by
  decide

/-- C9 amended: the in-batch duplicate check compares the element's email
against the raw input emails of all preceding elements, so an element whose
email equals that of an earlier element that failed validation and created
no record (here: an invalid truthy phone) is rejected with the in-batch
duplicate-email error and never persisted; duplicates of earlier persisted
elements are instead caught first by the store-query check. -/
theorem C9_in_batch_raw_duplicate (s : Store) (n1 n2 e ph : String)
    (he : validate_email e = true) (htr : ph.isEmpty = false)
    (hbad : validate_phone ph = false) (hs : emailExists s e = false) :
    (bulkCreateCustomers s
      [{ name := n1, email := e, phone := some ph },
       { name := n2, email := e, phone := none }]).1.errors =
      [rowTag 0 ++ "Invalid phone format",
       rowTag 1 ++ "Duplicate email " ++ e ++ " in batch"] ∧
    (bulkCreateCustomers s
      [{ name := n1, email := e, phone := some ph },
       { name := n2, email := e, phone := none }]).1.customers = [] := by
  constructor <;>
    simp [bulkCreateCustomers, bulkGo, he, hs, htr, hbad, phoneInvalid, optTruthy]

/-- C9 witness: the amended theorem applied to the email a@x.com, the
invalid phone abc and the empty store. -/
theorem C9_witness :
    (bulkCreateCustomers emptyStore
      [{ name := "A", email := "a@x.com", phone := some "abc" },
       { name := "C", email := "a@x.com", phone := none }]).1.errors =
      [rowTag 0 ++ "Invalid phone format",
       rowTag 1 ++ "Duplicate email " ++ "a@x.com" ++ " in batch"] :=
  (C9_in_batch_raw_duplicate emptyStore "A" "C" "a@x.com" "abc"
    (by decide) (by decide) (by decide) (by decide)).1

/-- C10: a falsy (absent or empty-string) phone input is persisted as null,
never as the empty string, and a truthy phone input is persisted verbatim —
for createCustomer directly, and for every record bulkCreateCustomers
creates. -/
theorem C10_phone_stored_null_not_empty :
    (∀ (s : Store) (input : CustomerInput) (c : Customer),
        (createCustomer s input).1.customer = some c →
        (optTruthy input.phone = false → c.phone = none) ∧
        (∀ p, input.phone = some p → p ≠ "" → c.phone = some p)) ∧
    (∀ (s : Store) (input : List CustomerInput) (c : Customer),
        c ∈ (bulkCreateCustomers s input).1.customers →
        c.phone ≠ some "" ∧
        (c.phone = none ∨ ∃ cd ∈ input, c.phone = cd.phone ∧
          optTruthy cd.phone = true)) := by
  constructor
  · intro s input c hc
    cases h1 : validate_email input.email <;>
      cases h2 : phoneInvalid input.phone <;>
        cases h3 : emailExists s input.email <;>
          simp [createCustomer, h1, h2, h3] at hc
    all_goals
      constructor
    all_goals
      first
      | (intro hfalsy
         rw [← hc, newCustomer]
         exact phoneOrNone_of_falsy input.phone hfalsy)
      | (intro p hp hpne
         rw [← hc, newCustomer]
         exact phoneOrNone_of_truthy input.phone p hp hpne)
  · intro s input c hc
    have hmem : c ∈ (bulkGo input s 0 [] [] input).1 := by
      simpa [bulkCreateCustomers] using hc
    rcases bulkGo_created_phone input input s 0 [] [] c hmem with h | ⟨cd, hcd, hph⟩
    · simp at h
    · constructor
      · rw [hph]
        exact phoneOrNone_ne_some_empty cd.phone
      · rcases phoneOrNone_cases cd.phone with h | ⟨heq, htr⟩
        · exact Or.inl (hph.trans h)
        · exact Or.inr ⟨cd, hcd, hph.trans heq, htr⟩

/-- C10 witness: the theorem applied to an empty-string phone input, whose
created record stores a null phone. -/
theorem C10_witness :
    (createCustomer emptyStore
      { name := "N", email := "n@x.com", phone := some "" }).1.customer =
      some (newCustomer emptyStore
        { name := "N", email := "n@x.com", phone := some "" }) ∧
    (newCustomer emptyStore
      { name := "N", email := "n@x.com", phone := some "" }).phone = none :=
  ⟨by decide,
   (C10_phone_stored_null_not_empty.1 emptyStore
      { name := "N", email := "n@x.com", phone := some "" }
      (newCustomer emptyStore
        { name := "N", email := "n@x.com", phone := some "" })
      (by decide)).1 (by decide)⟩
